import Mathlib

/-!
Shallow embedding of the pod lifecycle state machine and reconciliation
engine of `elasticdl/python/master/pod_manager.py`.

Pure fragments of the Python code (the transition table, the table scan,
the priority parser, the OOM classifier) become Lean functions; the
stateful `_event_cb` handler becomes an explicit state-passing function on
a `ManagerState` record.  External effects (cluster API calls, listener
callbacks) are reflected as data in the returned outcome so that theorems
can speak about which calls a step would make.
-/

namespace PodManagerModel

/-- `PodType` from `elasticdl_client.common.k8s_client` ("master" /
"worker" / "ps" label values). -/
inductive PodType where
  | MASTER
  | WORKER
  | PS
deriving DecidableEq, Repr

/-- `PodStatus` from `elasticdl.python.common.constants`. -/
inductive PodStatus where
  | INITIAL
  | PENDING
  | RUNNING
  | SUCCEEDED
  | FAILED
  | DELETED
deriving DecidableEq, Repr

/-- The `PodStateFlow` namedtuple of `pod_manager.py`: a transition rule.
`phase = none` models Python `phase=None`, the wildcard. -/
structure PodStateFlow where
  from_status : PodStatus
  to_status : PodStatus
  event_type : String
  phase : Option String
  should_relaunch : Bool
deriving DecidableEq, Repr

/-- `POD_STATE_FLOWS`: the fixed ordered transition table of
`pod_manager.py` (lines 182-246). -/
def POD_STATE_FLOWS : List PodStateFlow :=
  [ ⟨PodStatus.INITIAL, PodStatus.PENDING, "ADDED", some "Pending", false⟩,
    ⟨PodStatus.INITIAL, PodStatus.RUNNING, "ADDED", some "Running", false⟩,
    ⟨PodStatus.PENDING, PodStatus.RUNNING, "MODIFIED", some "Running", false⟩,
    ⟨PodStatus.RUNNING, PodStatus.SUCCEEDED, "MODIFIED", some "Succeeded", false⟩,
    ⟨PodStatus.RUNNING, PodStatus.FAILED, "MODIFIED", some "Failed", true⟩,
    ⟨PodStatus.PENDING, PodStatus.DELETED, "DELETED", none, true⟩,
    ⟨PodStatus.RUNNING, PodStatus.DELETED, "DELETED", none, true⟩,
    ⟨PodStatus.SUCCEEDED, PodStatus.DELETED, "DELETED", none, false⟩,
    ⟨PodStatus.FAILED, PodStatus.DELETED, "DELETED", none, false⟩ ]

/-- The row-matching condition of `PodManager.get_pod_state_flow`:
`from_status == row.from_status and event_type == row.event_type and
(row.phase is None or phase == row.phase)`. -/
def flowMatches (from_status : PodStatus) (event_type : String)
    (phase : Option String) (f : PodStateFlow) : Bool :=
  decide (from_status = f.from_status) && decide (event_type = f.event_type)
    && (decide (f.phase = none) || decide (phase = f.phase))

/-- `PodManager.get_pod_state_flow` (lines 572-585): scan
`POD_STATE_FLOWS` in order, return the first matching row or `none`. -/
def get_pod_state_flow (from_status : PodStatus) (event_type : String)
    (phase : Option String) : Option PodStateFlow :=
  POD_STATE_FLOWS.find? (flowMatches from_status event_type phase)

/-- The transition table exactly as the spec enumerates it (section 4.1),
written from the spec's words for comparison with `POD_STATE_FLOWS`. -/
def specTransitionTable : List PodStateFlow :=
  [ ⟨PodStatus.INITIAL, PodStatus.PENDING, "ADDED", some "Pending", false⟩,
    ⟨PodStatus.INITIAL, PodStatus.RUNNING, "ADDED", some "Running", false⟩,
    ⟨PodStatus.PENDING, PodStatus.RUNNING, "MODIFIED", some "Running", false⟩,
    ⟨PodStatus.RUNNING, PodStatus.SUCCEEDED, "MODIFIED", some "Succeeded", false⟩,
    ⟨PodStatus.RUNNING, PodStatus.FAILED, "MODIFIED", some "Failed", true⟩,
    ⟨PodStatus.PENDING, PodStatus.DELETED, "DELETED", none, true⟩,
    ⟨PodStatus.RUNNING, PodStatus.DELETED, "DELETED", none, true⟩,
    ⟨PodStatus.SUCCEEDED, PodStatus.DELETED, "DELETED", none, false⟩,
    ⟨PodStatus.FAILED, PodStatus.DELETED, "DELETED", none, false⟩ ]

/-- The `terminated` container state of a kubernetes container status:
`state.terminated.exit_code` and `state.terminated.reason`. -/
structure TerminatedState where
  exit_code : Int
  reason : String
deriving DecidableEq, Repr

/-- The `running` container state: `state.running.started_at`
(timestamps modelled as naturals). -/
structure RunningState where
  started_at : Nat
deriving DecidableEq, Repr

/-- The `state` field of one entry of `status.container_statuses`. -/
structure ContainerState where
  running : Option RunningState
  terminated : Option TerminatedState
deriving DecidableEq, Repr

/-- `_should_relaunch_killed_pod` (lines 90-103): true iff the first
container status has a `terminated` state with exit code 137 and a
reason other than "OOMKilled". -/
def should_relaunch_killed_pod (container_statuses : List ContainerState) : Bool :=
  match container_statuses with
  | [] => false
  | c :: _ =>
    match c.terminated with
    | none => false
    | some t => decide (t.exit_code = 137) && decide (t.reason ≠ "OOMKilled")

/-- `_get_start_running_time_stamp` (lines 106-114): the `started_at`
of the first container's `running` state, if present. -/
def get_start_running_time_stamp (container_statuses : List ContainerState) :
    Option Nat :=
  match container_statuses with
  | [] => none
  | c :: _ =>
    match c.running with
    | some r => some r.started_at
    | none => none

/-- `PodInfo` from `pod_event_callbacks.py` as stored in the cache. -/
structure PodInfo where
  type : PodType
  id : Nat
  name : String
  ip : Option String
  status : PodStatus
  start_time : Option Nat
deriving DecidableEq, Repr

/-- Lookup in a Python dict modelled as an insertion-ordered association
list: the value bound to `key`, if any. -/
def alist_lookup : List (String × PodInfo) → String → Option PodInfo
  | [], _ => none
  | p :: rest, key => if p.1 = key then some p.2 else alist_lookup rest key

/-- Python dict assignment `d[key] = v`: replace the binding in place when
the key exists (order preserved), otherwise append at the end. -/
def alist_insert (l : List (String × PodInfo)) (key : String) (v : PodInfo) :
    List (String × PodInfo) :=
  match l with
  | [] => [(key, v)]
  | p :: rest =>
    if p.1 = key then (key, v) :: rest
    else p :: alist_insert rest key v

/-- The object of a kubernetes event after field extraction: the pieces of
`evt_obj` that `_event_cb` reads. -/
structure EventObj where
  kind : String
  name : String
  pod_ip : Option String
  phase : Option String
  replica_type : PodType
  replica_index : Nat
  container_statuses : List ContainerState
deriving DecidableEq, Repr

/-- A raw watch event: the `object` and `type` entries of the event dict,
each possibly missing. -/
structure KubeEvent where
  object : Option EventObj
  type : Option String
deriving DecidableEq, Repr

/-- The lock-protected mutable fields of `PodManager` that `_event_cb`
and `_process_worker` touch. -/
structure ManagerState where
  pod_info_cache : PodType → List (String × PodInfo)
  next_worker_id : Nat
  worker_pod_priority : Nat → Option String
  relaunch_worker : Bool
  not_created_worker_id : List Nat

/-- Which listener method `_event_cb` invokes, per registered callback. -/
inductive CallbackKind where
  | started
  | succeeded
  | failed
  | deleted
deriving DecidableEq, Repr

/-- The `if/elif` chain of `_event_cb` (lines 538-560) choosing the
listener method from the target status; no branch fires for `PENDING`
or `INITIAL`. -/
def dispatch_for_status (s : PodStatus) : Option CallbackKind :=
  if s = PodStatus.RUNNING then some CallbackKind.started
  else if s = PodStatus.SUCCEEDED then some CallbackKind.succeeded
  else if s = PodStatus.FAILED then some CallbackKind.failed
  else if s = PodStatus.DELETED then some CallbackKind.deleted
  else none

/-- The observable outcome of one `_event_cb` call: the state afterwards,
the listener method dispatched to every registered callback (if any), and
the id passed to `_start_worker` when a relaunch was performed. -/
structure EventOutcome where
  state : ManagerState
  dispatched : Option CallbackKind
  relaunch_attempted : Option Nat

/-- An outcome that changes nothing and calls nothing. -/
def noop (s : ManagerState) : EventOutcome := ⟨s, none, none⟩

/-- Lines 508-511 of `_event_cb`: the cached status of the pod named in
the event, defaulting to INITIAL when the name is not in the cache. -/
def cached_status (s : ManagerState) (obj : EventObj) : PodStatus :=
  match alist_lookup (s.pod_info_cache obj.replica_type) obj.name with
  | some info => info.status
  | none => PodStatus.INITIAL

/-- Lines 532-555 of `_event_cb`: the relaunch flag
`should_relaunch = (pod_type == WORKER) and flow.should_relaunch and
self._relaunch_worker`, further conjoined on the FAILED branch with
`_should_relaunch_killed_pod(evt_obj)`. -/
def relaunch_decision (s : ManagerState) (obj : EventObj) (flow : PodStateFlow) : Bool :=
  if flow.to_status = PodStatus.FAILED then
    decide (obj.replica_type = PodType.WORKER) && flow.should_relaunch
      && s.relaunch_worker && should_relaunch_killed_pod obj.container_statuses
  else
    decide (obj.replica_type = PodType.WORKER) && flow.should_relaunch
      && s.relaunch_worker

/-- The cache after the write `self._pod_info_cache[pod_type][pod_name] =
pod_info` performed for a matched transition (lines 519-529). -/
def cache_after (s : ManagerState) (obj : EventObj) (flow : PodStateFlow) :
    PodType → List (String × PodInfo) :=
  let pod_info : PodInfo :=
    ⟨obj.replica_type, obj.replica_index, obj.name, obj.pod_ip, flow.to_status,
      get_start_running_time_stamp obj.container_statuses⟩
  fun t =>
    if t = obj.replica_type then
      alist_insert (s.pod_info_cache obj.replica_type) obj.name pod_info
    else s.pod_info_cache t

/-- Continuation of `_event_cb`: scan the table, return on no match;
otherwise write the new `PodInfo` into the cache, dispatch the
status-selected callback, and, when the relaunch flag holds, allocate the
next worker id, copy the dead pod's priority onto it and start the
replacement (lines 562-570). -/
def event_cb_core (s : ManagerState) (obj : EventObj) (evt_type : String) :
    EventOutcome :=
  match get_pod_state_flow (cached_status s obj) evt_type obj.phase with
  | none => noop s
  | some flow =>
    let dispatched := dispatch_for_status flow.to_status
    if relaunch_decision s obj flow then
      ⟨⟨cache_after s obj flow, s.next_worker_id + 1,
        fun n => if n = s.next_worker_id then s.worker_pod_priority obj.replica_index
                 else s.worker_pod_priority n,
        s.relaunch_worker, s.not_created_worker_id⟩,
        dispatched, some s.next_worker_id⟩
    else
      ⟨⟨cache_after s obj flow, s.next_worker_id, s.worker_pod_priority,
        s.relaunch_worker, s.not_created_worker_id⟩, dispatched, none⟩

/-- `_event_cb` with its early guards: missing object or type, non-Pod
kind, and MASTER pods are ignored. -/
def event_cb (s : ManagerState) (e : KubeEvent) : EventOutcome :=
  match e.object, e.type with
  | some obj, some et =>
    if et = "" then noop s
    else if obj.kind ≠ "Pod" then noop s
    else if obj.replica_type = PodType.MASTER then noop s
    else event_cb_core s obj et
  | _, _ => noop s

/-- `PodManager.get_alive_workers` (lines 606-612): the cached WORKER
records with status RUNNING, in cache insertion order (no sorting). -/
def get_alive_workers (s : ManagerState) : List PodInfo :=
  ((s.pod_info_cache PodType.WORKER).map Prod.snd).filter
    (fun info => info.status = PodStatus.RUNNING)

/-- Comparison used to model `alive_workers.sort(key=lambda p: p.start_time)`
(a total extension of Python's comparison to missing timestamps). -/
def start_time_le (a b : PodInfo) : Prop :=
  a.start_time.getD 0 ≤ b.start_time.getD 0

instance : DecidableRel start_time_le := fun a b =>
  inferInstanceAs (Decidable (a.start_time.getD 0 ≤ b.start_time.getD 0))

/-- `PodManager.get_alive_worker_name_addr` (lines 614-618): sort the
alive workers by ascending start time, then project name and ip. -/
def get_alive_worker_name_addr (s : ManagerState) :
    List (String × Option String) :=
  ((get_alive_workers s).insertionSort start_time_le).map
    (fun info => (info.name, info.ip))

/-- The validation list built by `_remove_worker` / `_remove_parameter_server`:
`[pod_info.id for pod_info in cache[pod_type].values() if status != DELETED]`. -/
def non_deleted_ids (s : ManagerState) (t : PodType) : List Nat :=
  (((s.pod_info_cache t).map Prod.snd).filter
    (fun info => info.status ≠ PodStatus.DELETED)).map PodInfo.id

/-- `PodManager._remove_worker` (lines 439-451): validate that the id is
among the cached non-DELETED worker ids; if so request `delete_worker(id)`
(returned as `some id`), otherwise log and ignore (`none`).  The cache is
only read, never written. -/
def remove_worker (s : ManagerState) (worker_id : Nat) : Option Nat :=
  if worker_id ∈ non_deleted_ids s PodType.WORKER
  then some worker_id else none

/-- `PodManager._remove_parameter_server` (lines 453-464): the same
validation over the PS slice of the cache, requesting `delete_ps(id)`. -/
def remove_parameter_server (s : ManagerState) (ps_id : Nat) : Option Nat :=
  if ps_id ∈ non_deleted_ids s PodType.PS
  then some ps_id else none

/-- The queue effect of `_start_worker` (lines 353-386): `create_worker`
either succeeds (`create_ok id = true`) or returns `None`, in which case
the id is appended to `_not_created_worker_id`.  Returns the success flag
and the updated queue. -/
def start_worker (create_ok : Nat → Bool) (queue : List Nat) (worker_id : Nat) :
    Bool × List Nat :=
  if create_ok worker_id then (true, queue) else (false, queue ++ [worker_id])

/-- `PodManager._process_worker` (lines 346-351): while the previous
creation succeeded and the queue is nonempty, `pop()` the LAST queued id
and call `_start_worker` on it (whose failure re-appends the id, here
inlined as `rest ++ [wid]`).  Returns the ids attempted in order together
with the final queue. -/
def process_worker (create_ok : Nat → Bool) (queue : List Nat) :
    List Nat × List Nat :=
  match h : queue.getLast? with
  | none => ([], queue)
  | some wid =>
    let rest := queue.dropLast
    if create_ok wid then
      let out := process_worker create_ok rest
      (wid :: out.1, out.2)
    else
      ([wid], rest ++ [wid])
termination_by queue.length
decreasing_by
  have hne : queue ≠ [] := by
    intro hq
    rw [hq] at h
    simp at h
  simp only [List.length_dropLast]
  exact Nat.sub_lt (List.length_pos.mpr hne) one_pos

/-! ### CPython `float()` and IEEE-754 binary64 arithmetic

`_parse_worker_pod_priority` computes `math.ceil(num_workers * float(s))`
in double precision.  The model below embeds the ASCII fragment of
CPython's `float()` grammar (surrounding ASCII whitespace, optional sign,
decimal digits with underscores between digits, at most one dot, an
optional `e`/`E` exponent, and the case-insensitive literals
inf/infinity/nan; Unicode digits and Unicode whitespace are outside the
fragment) and binary64 semantics over exact integer arithmetic:
`float(s)` is the decimal value correctly rounded to the nearest double
(ties to even, overflow to infinity, underflow through subnormals to
zero, as C `strtod` does), `num_workers` is converted to a double the
same way, the product is rounded once, and `math.ceil` is exact on
finite doubles and raises on infinities and nan. -/

/-- Value of a digit string, most significant first. -/
def digits_val (l : List Char) : Nat :=
  l.foldl (fun n c => n * 10 + (c.toNat - 48)) 0

/-- Split a character list at every dot, like `s.split('.')`. -/
def split_dot : List Char → List (List Char)
  | [] => [[]]
  | c :: rest =>
    if c = '.' then [] :: split_dot rest
    else
      match split_dot rest with
      | [] => [[c]]
      | g :: gs => (c :: g) :: gs

/-- ASCII lower-casing, used for the case-insensitive `e`, `inf`, `nan`. -/
def ascii_lower (c : Char) : Char :=
  if 'A' ≤ c ∧ c ≤ 'Z' then Char.ofNat (c.toNat + 32) else c

/-- The ASCII whitespace `float()` strips from both ends. -/
def is_py_space (c : Char) : Bool :=
  c = ' ' || c = '\t' || c = '\n' || c = '\r' || c = '\x0b' || c = '\x0c'

/-- Strip leading and trailing whitespace. -/
def strip_ws (l : List Char) : List Char :=
  ((l.dropWhile is_py_space).reverse.dropWhile is_py_space).reverse

/-- After an initial digit: digits with single underscores between
digits (`digit (["_"] digit)*`). -/
def digitpart_core : List Char → Bool
  | [] => true
  | '_' :: c :: rest => c.isDigit && digitpart_core rest
  | c :: rest => c.isDigit && digitpart_core rest

/-- Python's `digitpart`: nonempty, starts and ends with a digit,
underscores only between digits. -/
def is_digitpart : List Char → Bool
  | [] => false
  | c :: rest => c.isDigit && digitpart_core rest

/-- Drop the underscores of a digitpart before reading its value. -/
def strip_underscores (l : List Char) : List Char :=
  l.filter (fun c => c ≠ '_')

/-- Split at the first `e`/`E`, returning the mantissa characters and the
exponent characters when present. -/
def split_e : List Char → List Char × Option (List Char)
  | [] => ([], none)
  | c :: rest =>
    if ascii_lower c = 'e' then ([], some rest)
    else
      let p := split_e rest
      (c :: p.1, p.2)

/-- The unsigned mantissa `digitpart ["." [digitpart]] | "." digitpart`:
returns the combined digit value and the number of fractional digits. -/
def parse_mantissa (l : List Char) : Option (Nat × Nat) :=
  match split_dot l with
  | [ip] =>
    if is_digitpart ip then some (digits_val (strip_underscores ip), 0)
    else none
  | [ip, fp] =>
    if ip = [] then
      if is_digitpart fp then
        some (digits_val (strip_underscores fp), (strip_underscores fp).length)
      else none
    else if fp = [] then
      if is_digitpart ip then some (digits_val (strip_underscores ip), 0)
      else none
    else
      if is_digitpart ip && is_digitpart fp then
        some (digits_val (strip_underscores ip) *
            10 ^ (strip_underscores fp).length +
          digits_val (strip_underscores fp), (strip_underscores fp).length)
      else none
  | _ => none

/-- The exponent after `e`: optional sign, then a digitpart. -/
def parse_e_part : List Char → Option Int
  | '+' :: rest =>
    if is_digitpart rest then some ((digits_val (strip_underscores rest) : Int))
    else none
  | '-' :: rest =>
    if is_digitpart rest then some (-(digits_val (strip_underscores rest) : Int))
    else none
  | l =>
    if is_digitpart l then some ((digits_val (strip_underscores l) : Int))
    else none

/-- A decimal literal as the exact value `d * 10^p`. -/
def parse_number (l : List Char) : Option (Nat × Int) :=
  let me := split_e l
  match parse_mantissa me.1 with
  | none => none
  | some df =>
    match me.2 with
    | none => some (df.1, -(df.2 : Int))
    | some el =>
      match parse_e_part el with
      | none => none
      | some ex => some (df.1, ex - (df.2 : Int))

/-- A CPython float: a finite double `m * 2^e`, a signed infinity, or
nan. -/
inductive PyFloat where
  | finite (m : Int) (e : Int)
  | infinite (neg : Bool)
  | nan
deriving DecidableEq, Repr

/-- `⌊log2 n⌋` for `n ≥ 1`, driven by a fuel argument that bounds the
recursion depth (`n` itself always suffices). -/
def log2_fuel : Nat → Nat → Nat
  | 0, _ => 0
  | fuel + 1, n => if n ≤ 1 then 0 else log2_fuel fuel (n / 2) + 1

/-- `⌊log2 n⌋` for `n ≥ 1`. -/
def nat_log2 (n : Nat) : Nat := log2_fuel n n

/-- Decide `2^t ≤ a / b` for positive `a`, `b` by cross-multiplying. -/
def pow2_le (t : Int) (a b : Nat) : Bool :=
  if 0 ≤ t then b * 2 ^ t.toNat ≤ a
  else b ≤ a * 2 ^ (-t).toNat

/-- Round `a / b / 2^u` to an integer, ties to even. -/
def round_half_even_scaled (a b : Nat) (u : Int) : Nat :=
  let scaledN := if u ≤ 0 then a * 2 ^ (-u).toNat else a
  let scaledM := if u ≤ 0 then b else b * 2 ^ u.toNat
  let k := scaledN / scaledM
  let r := scaledN % scaledM
  if 2 * r < scaledM then k
  else if scaledM < 2 * r then k + 1
  else if k % 2 = 0 then k else k + 1

/-- Round the positive rational `a / b` (`a, b ≥ 1`) to the nearest
binary64 value (ties to even): find the binade exponent `e` with
`2^e ≤ a/b < 2^(e+1)`, round to a 53-bit significand quantum `2^(e-52)`
clamped at the subnormal quantum `2^-1074`, and overflow to infinity at
`2^1024`. -/
def round_pos_dyadic (a b : Nat) : PyFloat :=
  let d : Int := (nat_log2 a : Int) - (nat_log2 b : Int)
  let e : Int := if pow2_le d a b then d else d - 1
  let u : Int := max (e - 52) (-1074)
  let m := round_half_even_scaled a b u
  if 2 ^ 2098 ≤ m * 2 ^ (u + 1074).toNat then PyFloat.infinite false
  else PyFloat.finite (m : Int) u

/-- Round the rational `a / b` (`b ≥ 1`) to binary64. -/
def round_dyadic (a : Int) (b : Nat) : PyFloat :=
  if a = 0 then PyFloat.finite 0 0
  else if 0 < a then round_pos_dyadic a.toNat b
  else
    match round_pos_dyadic (-a).toNat b with
    | PyFloat.finite m e => PyFloat.finite (-m) e
    | PyFloat.infinite _ => PyFloat.infinite true
    | PyFloat.nan => PyFloat.nan

/-- The double nearest to the exact decimal `±d * 10^p`. -/
def pyfloat_of_decimal (neg : Bool) (d : Nat) (p : Int) : PyFloat :=
  let a : Int := if neg then -(d : Int) else (d : Int)
  if 0 ≤ p then round_dyadic (a * 10 ^ p.toNat) 1
  else round_dyadic a (10 ^ (-p).toNat)

/-- CPython `float(s)` on the ASCII fragment: strip whitespace, read an
optional sign, accept inf/infinity/nan case-insensitively, otherwise
parse a decimal literal and round it to the nearest double. -/
def parse_py_float (s : String) : Option PyFloat :=
  let l := strip_ws s.toList
  let sc : Bool × List Char :=
    match l with
    | '+' :: rest => (false, rest)
    | '-' :: rest => (true, rest)
    | _ => (false, l)
  let low := sc.2.map ascii_lower
  if low = ['i', 'n', 'f'] ∨ low = ['i', 'n', 'f', 'i', 'n', 'i', 't', 'y'] then
    some (PyFloat.infinite sc.1)
  else if low = ['n', 'a', 'n'] then some PyFloat.nan
  else
    match parse_number sc.2 with
    | some dp => some (pyfloat_of_decimal sc.1 dp.1 dp.2)
    | none => none

/-- Python `int`-to-`float` conversion (exact below `2^53`, rounded to
nearest above). -/
def double_of_nat (n : Nat) : PyFloat := round_dyadic (n : Int) 1

/-- IEEE-754 multiplication: the exact product rounded once; infinities
and nan propagate as in Python (`0 * inf` is nan). -/
def pyfloat_mul (x y : PyFloat) : PyFloat :=
  match x, y with
  | PyFloat.nan, _ => PyFloat.nan
  | _, PyFloat.nan => PyFloat.nan
  | PyFloat.infinite s1, PyFloat.infinite s2 => PyFloat.infinite (s1 != s2)
  | PyFloat.infinite s1, PyFloat.finite m _ =>
    if m = 0 then PyFloat.nan else PyFloat.infinite (s1 != decide (m < 0))
  | PyFloat.finite m _, PyFloat.infinite s2 =>
    if m = 0 then PyFloat.nan else PyFloat.infinite (s2 != decide (m < 0))
  | PyFloat.finite m1 e1, PyFloat.finite m2 e2 =>
    if 0 ≤ e1 + e2 then round_dyadic (m1 * m2 * 2 ^ (e1 + e2).toNat) 1
    else round_dyadic (m1 * m2) (2 ^ (-(e1 + e2)).toNat)

/-- `math.ceil` on a double: exact on finite values
(`⌈m / 2^k⌉ = -⌊-m / 2^k⌋`); raises OverflowError on infinities and
ValueError on nan (`none`). -/
def pyfloat_ceil : PyFloat → Option Int
  | PyFloat.finite m e =>
    if 0 ≤ e then some (m * 2 ^ e.toNat)
    else some (-((-m) / ((2 : Int) ^ (-e).toNat)))
  | PyFloat.infinite _ => none
  | PyFloat.nan => none

/-- `_is_float_str` (lines 59-66): false on `None` and the empty string,
otherwise whether `float(str_number)` succeeds. -/
def is_float_str : Option String → Bool
  | none => false
  | some s => if s = "" then false else (parse_py_float s).isSome

/-- `_parse_worker_pod_priority` (lines 69-87).  The Python dict over
`range(num_workers)` is modelled as the list of its values in id order;
`none` models an exception escaping the call: the explicit `ValueError`
of the final branch, or the OverflowError/ValueError that
`math.ceil(num_workers * fraction)` raises when the double product is
infinite or nan.  On the float branch id `i` gets "high" iff
`i < high_count`.  The inner `none` arms behind `is_float_str` are
unreachable. -/
def parse_worker_pod_priority (num_workers : Nat) (wpp : Option String) :
    Option (List (Option String)) :=
  if is_float_str wpp then
    match wpp with
    | some s =>
      match parse_py_float s with
      | some fraction =>
        match pyfloat_ceil (pyfloat_mul (double_of_nat num_workers) fraction) with
        | some high_count =>
          some ((List.range num_workers).map (fun (i : Nat) =>
            if (i : Int) < high_count then some "high" else some "low"))
        | none => none
      | none => none
    | none => none
  else if wpp = none ∨ wpp = some "" ∨ wpp = some "high" ∨ wpp = some "low" then
    some ((List.range num_workers).map (fun _ => wpp))
  else none

/-- Manager state right after `_init_pod_status` (lines 334-344): empty
caches, relaunch enabled, empty retry queue, worker-id counter at 0. -/
def init_manager_state (priority0 : Nat → Option String) : ManagerState :=
  ⟨fun _ => [], 0, priority0, true, []⟩

/-- Deliver a list of watch events through `_event_cb` in order. -/
def run_events (s : ManagerState) : List KubeEvent → ManagerState
  | [] => s
  | e :: rest => run_events (event_cb s e).state rest

/-! ## Helper lemmas -/

theorem get_pod_state_flow_spec {fs : PodStatus} {et : String} {ph : Option String}
    {r : PodStateFlow} (h : get_pod_state_flow fs et ph = some r) :
    r ∈ POD_STATE_FLOWS ∧ flowMatches fs et ph r = true :=
  ⟨List.mem_of_find?_eq_some h, List.find?_some h⟩

theorem get_pod_state_flow_deleted (et : String) (ph : Option String) :
    get_pod_state_flow PodStatus.DELETED et ph = none := rfl

theorem event_cb_some (s : ManagerState) (obj : EventObj) (et : String) :
    event_cb s ⟨some obj, some et⟩ =
      if et = "" then noop s
      else if obj.kind ≠ "Pod" then noop s
      else if obj.replica_type = PodType.MASTER then noop s
      else event_cb_core s obj et := rfl

theorem event_cb_core_no_match {s : ManagerState} {obj : EventObj} {et : String}
    (h : get_pod_state_flow (cached_status s obj) et obj.phase = none) :
    event_cb_core s obj et = noop s := by
  unfold event_cb_core
  rw [h]

theorem event_cb_match {s : ManagerState} {obj : EventObj} {et : String}
    (hk : obj.kind = "Pod") (hm : obj.replica_type ≠ PodType.MASTER)
    (he : et ≠ "") :
    event_cb s ⟨some obj, some et⟩ = event_cb_core s obj et := by
  rw [event_cb_some, if_neg he, if_neg (fun hc => hc hk), if_neg hm]

theorem event_cb_core_match {s : ManagerState} {obj : EventObj} {et : String}
    {flow : PodStateFlow}
    (h : get_pod_state_flow (cached_status s obj) et obj.phase = some flow) :
    event_cb_core s obj et =
      if relaunch_decision s obj flow then
        ⟨⟨cache_after s obj flow, s.next_worker_id + 1,
          fun n => if n = s.next_worker_id then s.worker_pod_priority obj.replica_index
                   else s.worker_pod_priority n,
          s.relaunch_worker, s.not_created_worker_id⟩,
          dispatch_for_status flow.to_status, some s.next_worker_id⟩
      else
        ⟨⟨cache_after s obj flow, s.next_worker_id, s.worker_pod_priority,
          s.relaunch_worker, s.not_created_worker_id⟩,
          dispatch_for_status flow.to_status, none⟩ := by
  unfold event_cb_core
  rw [h]

theorem event_cb_core_dispatched {s : ManagerState} {obj : EventObj} {et : String}
    {flow : PodStateFlow}
    (h : get_pod_state_flow (cached_status s obj) et obj.phase = some flow) :
    (event_cb_core s obj et).dispatched = dispatch_for_status flow.to_status := by
  rw [event_cb_core_match h]
  split <;> rfl

theorem event_cb_core_relaunch {s : ManagerState} {obj : EventObj} {et : String}
    {flow : PodStateFlow}
    (h : get_pod_state_flow (cached_status s obj) et obj.phase = some flow) :
    (event_cb_core s obj et).relaunch_attempted =
      if relaunch_decision s obj flow then some s.next_worker_id else none := by
  rw [event_cb_core_match h]
  split <;> rfl

/-! ## Claims -/

/-- C1: `get_pod_state_flow` scans `POD_STATE_FLOWS` in its fixed order,
returning the first row whose from_status and event_type match exactly and
whose phase matches exactly or is the wildcard, and `none` when no row
matches; the table rows are exactly the nine the spec enumerates; every
row is returned on its own key, and a non-wildcard row is never returned
for a different phase. -/
theorem c1_transition_table :
    POD_STATE_FLOWS = specTransitionTable
    ∧ (∀ fs et ph, get_pod_state_flow fs et ph =
        POD_STATE_FLOWS.find? (flowMatches fs et ph))
    ∧ (∀ fs et ph,
        (∀ r ∈ POD_STATE_FLOWS, flowMatches fs et ph r = false) →
        get_pod_state_flow fs et ph = none)
    ∧ (∀ r ∈ POD_STATE_FLOWS,
        get_pod_state_flow r.from_status r.event_type r.phase = some r)
    ∧ (∀ r ∈ POD_STATE_FLOWS, r.phase ≠ none →
        ∀ ph, ph ≠ r.phase →
        get_pod_state_flow r.from_status r.event_type ph ≠ some r) := by
  refine ⟨rfl, fun _ _ _ => rfl, ?_, by decide, ?_⟩
  · intro fs et ph h
    exact List.find?_eq_none.mpr (fun r hr => by simp [h r hr])
  · intro r _ hph ph hne hsome
    have hm := (get_pod_state_flow_spec hsome).2
    simp only [flowMatches, Bool.and_eq_true, Bool.or_eq_true,
      decide_eq_true_eq] at hm
    rcases hm with ⟨_, h0 | h0⟩
    · exact hph h0
    · exact hne h0

/-- Witness for C1 at concrete inputs: the first table row is returned on
its own key, an unmatched key yields `none`, and the non-wildcard first
row is not returned for a different phase. -/
theorem c1_transition_table_witness :
    get_pod_state_flow PodStatus.INITIAL "ADDED" (some "Pending") =
      some ⟨PodStatus.INITIAL, PodStatus.PENDING, "ADDED", some "Pending", false⟩
    ∧ get_pod_state_flow PodStatus.FAILED "ADDED" (some "Pending") = none
    ∧ get_pod_state_flow PodStatus.INITIAL "ADDED" (some "Succeeded") ≠
      some ⟨PodStatus.INITIAL, PodStatus.PENDING, "ADDED", some "Pending", false⟩ := by
  refine ⟨?_, ?_, ?_⟩
  · exact c1_transition_table.2.2.2.1
      ⟨PodStatus.INITIAL, PodStatus.PENDING, "ADDED", some "Pending", false⟩
      (by decide)
  · exact c1_transition_table.2.2.1 PodStatus.FAILED "ADDED" (some "Pending")
      (by decide)
  · exact c1_transition_table.2.2.2.2
      ⟨PodStatus.INITIAL, PodStatus.PENDING, "ADDED", some "Pending", false⟩
      (by decide) (by decide) (some "Succeeded") (by decide)

/-- C8: DELETED is terminal: no table row fires from DELETED for any event
type and phase, so an event for a pod already cached as DELETED leaves the
state unchanged and dispatches nothing (and requests no relaunch). -/
theorem c8_deleted_terminal :
    (∀ et ph, get_pod_state_flow PodStatus.DELETED et ph = none)
    ∧ (∀ (s : ManagerState) (obj : EventObj) (et : String) (info : PodInfo),
        alist_lookup (s.pod_info_cache obj.replica_type) obj.name = some info →
        info.status = PodStatus.DELETED →
        event_cb s ⟨some obj, some et⟩ = noop s) := by
  refine ⟨get_pod_state_flow_deleted, ?_⟩
  intro s obj et info hlook hstat
  have hc : cached_status s obj = PodStatus.DELETED := by
    unfold cached_status
    rw [hlook]
    exact hstat
  rw [event_cb_some]
  split_ifs
  · rfl
  · rfl
  · rfl
  · exact event_cb_core_no_match
      (by rw [hc]; exact get_pod_state_flow_deleted et obj.phase)

/-- Witness for C8: a concrete worker cached as DELETED receives a second
DELETED event; the call is a no-op. -/
theorem c8_deleted_terminal_witness :
    (event_cb
      ⟨fun t => if t = PodType.WORKER then
          [("worker-0", ⟨PodType.WORKER, 0, "worker-0", none, PodStatus.DELETED, none⟩)]
        else [], 1, fun _ => none, true, []⟩
      ⟨some ⟨"Pod", "worker-0", none, some "Failed", PodType.WORKER, 0, []⟩,
        some "DELETED"⟩).dispatched = none := by
  have h := c8_deleted_terminal.2
    (⟨fun t => if t = PodType.WORKER then
        [("worker-0", ⟨PodType.WORKER, 0, "worker-0", none, PodStatus.DELETED, none⟩)]
      else [], 1, fun _ => none, true, []⟩ : ManagerState)
    ⟨"Pod", "worker-0", none, some "Failed", PodType.WORKER, 0, []⟩ "DELETED"
    ⟨PodType.WORKER, 0, "worker-0", none, PodStatus.DELETED, none⟩ rfl rfl
  rw [h]
  rfl

/-- C3 counterexample: the INITIAL+ADDED+Pending event produces a matched
transition (target PENDING), yet `_event_cb` dispatches no listener
notification for it — not "exactly one notification per event". -/
theorem c3_counterexample :
    get_pod_state_flow PodStatus.INITIAL "ADDED" (some "Pending") =
      some ⟨PodStatus.INITIAL, PodStatus.PENDING, "ADDED", some "Pending", false⟩
    ∧ (event_cb (init_manager_state (fun _ => none))
        ⟨some ⟨"Pod", "worker-0", none, some "Pending", PodType.WORKER, 0, []⟩,
          some "ADDED"⟩).dispatched = none :=
  ⟨rfl, rfl⟩

/-- C3 (amended): for every guarded event with a matched transition, the
dispatched listener method is selected by the target status — RUNNING to
on_pod_started, SUCCEEDED to on_pod_succeeded, FAILED to on_pod_failed,
DELETED to on_pod_deleted, and at most one method per event — but a
matched transition targeting PENDING dispatches no notification at all. -/
theorem c3_dispatch_by_target :
    (∀ (s : ManagerState) (obj : EventObj) (et : String) (flow : PodStateFlow),
      obj.kind = "Pod" → obj.replica_type ≠ PodType.MASTER → et ≠ "" →
      get_pod_state_flow (cached_status s obj) et obj.phase = some flow →
      (event_cb s ⟨some obj, some et⟩).dispatched =
        dispatch_for_status flow.to_status)
    ∧ dispatch_for_status PodStatus.RUNNING = some CallbackKind.started
    ∧ dispatch_for_status PodStatus.SUCCEEDED = some CallbackKind.succeeded
    ∧ dispatch_for_status PodStatus.FAILED = some CallbackKind.failed
    ∧ dispatch_for_status PodStatus.DELETED = some CallbackKind.deleted
    ∧ dispatch_for_status PodStatus.PENDING = none := by
  refine ⟨?_, rfl, rfl, rfl, rfl, rfl⟩
  intro s obj et flow hk hm he h
  rw [event_cb_match hk hm he]
  exact event_cb_core_dispatched h

/-- Witness for C3 (amended): a concrete ADDED+Running worker event from
an empty cache dispatches exactly `on_pod_started`. -/
theorem c3_dispatch_by_target_witness :
    (event_cb (init_manager_state (fun _ => none))
      ⟨some ⟨"Pod", "worker-0", some "10.0.0.1", some "Running", PodType.WORKER, 0,
          [⟨some ⟨7⟩, none⟩]⟩,
        some "ADDED"⟩).dispatched = some CallbackKind.started := by
  have h := c3_dispatch_by_target.1 (init_manager_state (fun _ => none))
    ⟨"Pod", "worker-0", some "10.0.0.1", some "Running", PodType.WORKER, 0,
      [⟨some ⟨7⟩, none⟩]⟩ "ADDED"
    ⟨PodStatus.INITIAL, PodStatus.RUNNING, "ADDED", some "Running", false⟩
    rfl (by decide) (by decide) rfl
  rw [h]
  rfl

/-- C2 counterexample: a RUNNING worker fails with a terminated state of
exit code 1 and reason "Error" — per the claim's classification this is
not out-of-memory, so with WORKER type, `should_relaunch = true` on the
matched row, and relaunch enabled, the claim demands a replacement; the
code creates none because the exit code is not 137. -/
theorem c2_counterexample :
    get_pod_state_flow PodStatus.RUNNING "MODIFIED" (some "Failed") =
      some ⟨PodStatus.RUNNING, PodStatus.FAILED, "MODIFIED", some "Failed", true⟩
    ∧ ¬((1 : Int) = 137 ∧ ("Error" : String) = "OOMKilled")
    ∧ (event_cb
        (⟨fun t => if t = PodType.WORKER then
            [("worker-0",
              ⟨PodType.WORKER, 0, "worker-0", none, PodStatus.RUNNING, some 5⟩)]
          else [], 1, fun _ => some "high", true, []⟩ : ManagerState)
        ⟨some ⟨"Pod", "worker-0", none, some "Failed", PodType.WORKER, 0,
            [⟨none, some ⟨1, "Error"⟩⟩]⟩,
          some "MODIFIED"⟩).relaunch_attempted = none :=
  ⟨rfl, by decide, rfl⟩

/-- C2 (amended): for a guarded event whose matched transition targets
FAILED, a replacement worker is created iff the pod type is WORKER, the
row's `should_relaunch` holds, worker relaunch is enabled, and the first
container has a terminated state with exit code 137 and reason other than
"OOMKilled" — so 137+"OOMKilled" suppresses relaunch, 137 with any other
reason is eligible, and a failure without a 137 termination is never
relaunched. -/
theorem c2_relaunch_iff :
    (∀ (s : ManagerState) (obj : EventObj) (et : String) (flow : PodStateFlow),
      obj.kind = "Pod" → obj.replica_type ≠ PodType.MASTER → et ≠ "" →
      get_pod_state_flow (cached_status s obj) et obj.phase = some flow →
      flow.to_status = PodStatus.FAILED →
      ((event_cb s ⟨some obj, some et⟩).relaunch_attempted ≠ none ↔
        (obj.replica_type = PodType.WORKER ∧ flow.should_relaunch = true
          ∧ s.relaunch_worker = true
          ∧ should_relaunch_killed_pod obj.container_statuses = true)))
    ∧ (∀ css : List ContainerState,
        should_relaunch_killed_pod css = true ↔
        ∃ c rest t, css = c :: rest ∧ c.terminated = some t
          ∧ t.exit_code = 137 ∧ t.reason ≠ "OOMKilled") := by
  constructor
  · intro s obj et flow hk hm he h hfail
    rw [event_cb_match hk hm he, event_cb_core_relaunch h]
    have hdec : relaunch_decision s obj flow =
        (decide (obj.replica_type = PodType.WORKER) && flow.should_relaunch
          && s.relaunch_worker
          && should_relaunch_killed_pod obj.container_statuses) := by
      unfold relaunch_decision
      rw [if_pos hfail]
    rw [hdec]
    split
    · rename_i hcond
      simp only [Bool.and_eq_true, decide_eq_true_eq] at hcond
      simp only [ne_eq, reduceCtorEq, not_false_eq_true, true_iff]
      exact ⟨hcond.1.1.1, hcond.1.1.2, hcond.1.2, hcond.2⟩
    · rename_i hcond
      simp only [Bool.and_eq_true, decide_eq_true_eq, not_and] at hcond
      simp only [ne_eq, not_true_eq_false, false_iff, not_and]
      intro h1 h2 h3 h4
      exact hcond ⟨⟨h1, h2⟩, h3⟩ h4
  · intro css
    cases css with
    | nil => simp [should_relaunch_killed_pod]
    | cons c rest =>
      cases hterm : c.terminated with
      | none => simp [should_relaunch_killed_pod, hterm]
      | some t =>
        simp only [should_relaunch_killed_pod, hterm, Bool.and_eq_true,
          decide_eq_true_eq]
        constructor
        · rintro ⟨h137, hreason⟩
          exact ⟨c, rest, t, rfl, hterm, h137, hreason⟩
        · rintro ⟨c', rest', t', heq, hterm', h137, hreason⟩
          cases heq
          rw [hterm] at hterm'
          cases hterm'
          exact ⟨h137, hreason⟩

/-- Witness for C2 (amended): the same failure with exit code 137 and
reason "Error" is eligible, so a replacement is requested. -/
theorem c2_relaunch_iff_witness :
    (event_cb
      (⟨fun t => if t = PodType.WORKER then
          [("worker-0",
            ⟨PodType.WORKER, 0, "worker-0", none, PodStatus.RUNNING, some 5⟩)]
        else [], 1, fun _ => some "high", true, []⟩ : ManagerState)
      ⟨some ⟨"Pod", "worker-0", none, some "Failed", PodType.WORKER, 0,
          [⟨none, some ⟨137, "Error"⟩⟩]⟩,
        some "MODIFIED"⟩).relaunch_attempted ≠ none := by
  have h := (c2_relaunch_iff.1
    (⟨fun t => if t = PodType.WORKER then
        [("worker-0",
          ⟨PodType.WORKER, 0, "worker-0", none, PodStatus.RUNNING, some 5⟩)]
      else [], 1, fun _ => some "high", true, []⟩ : ManagerState)
    ⟨"Pod", "worker-0", none, some "Failed", PodType.WORKER, 0,
      [⟨none, some ⟨137, "Error"⟩⟩]⟩ "MODIFIED"
    ⟨PodStatus.RUNNING, PodStatus.FAILED, "MODIFIED", some "Failed", true⟩
    rfl (by decide) (by decide) rfl rfl).mpr
  exact h ⟨rfl, rfl, rfl, by decide⟩

theorem relaunch_decision_worker {s : ManagerState} {obj : EventObj}
    {flow : PodStateFlow} (h : relaunch_decision s obj flow = true) :
    obj.replica_type = PodType.WORKER := by
  unfold relaunch_decision at h
  split at h
  · simp only [Bool.and_eq_true, decide_eq_true_eq] at h
    exact h.1.1.1
  · simp only [Bool.and_eq_true, decide_eq_true_eq] at h
    exact h.1.1

/-- C7: whenever `_event_cb` performs a relaunch, exactly one replacement
creation is requested; its id is the counter value, strictly greater than
every previously allocated id (ids `< next_worker_id`), the counter is
advanced past it, its priority class is copied verbatim from the dead
pod's entry, and no other priority entry changes; relaunch only happens
for WORKER pods. -/
theorem c7_relaunch_fresh_id :
    ∀ (s : ManagerState) (e : KubeEvent) (nid : Nat),
      (event_cb s e).relaunch_attempted = some nid →
      ∃ obj, e.object = some obj
        ∧ obj.replica_type = PodType.WORKER
        ∧ nid = s.next_worker_id
        ∧ (event_cb s e).state.next_worker_id = nid + 1
        ∧ (∀ k, k < s.next_worker_id → k < nid)
        ∧ (event_cb s e).state.worker_pod_priority nid =
            s.worker_pod_priority obj.replica_index
        ∧ (∀ m, m ≠ nid →
            (event_cb s e).state.worker_pod_priority m = s.worker_pod_priority m) := by
  intro s e nid h
  obtain ⟨o, t⟩ := e
  cases o with
  | none =>
    cases t <;> simp [event_cb, noop] at h
  | some obj =>
    cases t with
    | none => simp [event_cb, noop] at h
    | some et =>
      by_cases he : et = ""
      · rw [event_cb_some, if_pos he] at h
        simp [noop] at h
      by_cases hk : obj.kind ≠ "Pod"
      · rw [event_cb_some, if_neg he, if_pos hk] at h
        simp [noop] at h
      by_cases hm : obj.replica_type = PodType.MASTER
      · rw [event_cb_some, if_neg he, if_neg hk, if_pos hm] at h
        simp [noop] at h
      have hcb : event_cb s ⟨some obj, some et⟩ = event_cb_core s obj et :=
        event_cb_match (not_not.mp hk) hm he
      rw [hcb] at h ⊢
      cases hflow : get_pod_state_flow (cached_status s obj) et obj.phase with
      | none =>
        rw [event_cb_core_no_match hflow] at h
        simp [noop] at h
      | some flow =>
        rw [event_cb_core_match hflow] at h ⊢
        by_cases hrd : relaunch_decision s obj flow = true
        · rw [if_pos hrd] at h ⊢
          have h' : some s.next_worker_id = some nid := h
          have hnid : nid = s.next_worker_id := (Option.some.inj h').symm
          refine ⟨obj, rfl, relaunch_decision_worker hrd, hnid, by rw [hnid],
            fun k hk2 => by omega, ?_, ?_⟩
          · show (if nid = s.next_worker_id then
                s.worker_pod_priority obj.replica_index
              else s.worker_pod_priority nid) = s.worker_pod_priority obj.replica_index
            rw [if_pos hnid]
          · intro m hmne
            show (if m = s.next_worker_id then
                s.worker_pod_priority obj.replica_index
              else s.worker_pod_priority m) = s.worker_pod_priority m
            rw [if_neg (hnid ▸ hmne)]
        · rw [if_neg hrd] at h
          exact absurd h (by simp)

/-- Witness for C7: the concrete 137/"Error" worker failure relaunches with
the fresh id 1 (= the counter), counter advanced to 2, priority copied. -/
theorem c7_relaunch_fresh_id_witness :
    ∃ obj,
      (⟨some ⟨"Pod", "worker-0", none, some "Failed", PodType.WORKER, 0,
          [⟨none, some ⟨137, "Error"⟩⟩]⟩, some "MODIFIED"⟩ : KubeEvent).object = some obj
      ∧ obj.replica_type = PodType.WORKER
      ∧ 1 = (⟨fun t => if t = PodType.WORKER then
            [("worker-0",
              ⟨PodType.WORKER, 0, "worker-0", none, PodStatus.RUNNING, some 5⟩)]
          else [], 1, fun _ => some "high", true, []⟩ : ManagerState).next_worker_id
      ∧ (event_cb
          (⟨fun t => if t = PodType.WORKER then
              [("worker-0",
                ⟨PodType.WORKER, 0, "worker-0", none, PodStatus.RUNNING, some 5⟩)]
            else [], 1, fun _ => some "high", true, []⟩ : ManagerState)
          ⟨some ⟨"Pod", "worker-0", none, some "Failed", PodType.WORKER, 0,
              [⟨none, some ⟨137, "Error"⟩⟩]⟩, some "MODIFIED"⟩).state.next_worker_id = 1 + 1
      ∧ (∀ k, k < (⟨fun t => if t = PodType.WORKER then
            [("worker-0",
              ⟨PodType.WORKER, 0, "worker-0", none, PodStatus.RUNNING, some 5⟩)]
          else [], 1, fun _ => some "high", true, []⟩ : ManagerState).next_worker_id → k < 1)
      ∧ (event_cb
          (⟨fun t => if t = PodType.WORKER then
              [("worker-0",
                ⟨PodType.WORKER, 0, "worker-0", none, PodStatus.RUNNING, some 5⟩)]
            else [], 1, fun _ => some "high", true, []⟩ : ManagerState)
          ⟨some ⟨"Pod", "worker-0", none, some "Failed", PodType.WORKER, 0,
              [⟨none, some ⟨137, "Error"⟩⟩]⟩, some "MODIFIED"⟩).state.worker_pod_priority 1 =
          (⟨fun t => if t = PodType.WORKER then
              [("worker-0",
                ⟨PodType.WORKER, 0, "worker-0", none, PodStatus.RUNNING, some 5⟩)]
            else [], 1, fun _ => some "high", true, []⟩ : ManagerState).worker_pod_priority obj.replica_index
      ∧ (∀ m, m ≠ 1 →
          (event_cb
            (⟨fun t => if t = PodType.WORKER then
                [("worker-0",
                  ⟨PodType.WORKER, 0, "worker-0", none, PodStatus.RUNNING, some 5⟩)]
              else [], 1, fun _ => some "high", true, []⟩ : ManagerState)
            ⟨some ⟨"Pod", "worker-0", none, some "Failed", PodType.WORKER, 0,
                [⟨none, some ⟨137, "Error"⟩⟩]⟩, some "MODIFIED"⟩).state.worker_pod_priority m =
            (⟨fun t => if t = PodType.WORKER then
                [("worker-0",
                  ⟨PodType.WORKER, 0, "worker-0", none, PodStatus.RUNNING, some 5⟩)]
              else [], 1, fun _ => some "high", true, []⟩ : ManagerState).worker_pod_priority m) :=
  c7_relaunch_fresh_id
    (⟨fun t => if t = PodType.WORKER then
        [("worker-0",
          ⟨PodType.WORKER, 0, "worker-0", none, PodStatus.RUNNING, some 5⟩)]
      else [], 1, fun _ => some "high", true, []⟩ : ManagerState)
    ⟨some ⟨"Pod", "worker-0", none, some "Failed", PodType.WORKER, 0,
        [⟨none, some ⟨137, "Error"⟩⟩]⟩, some "MODIFIED"⟩ 1 rfl

/-- C9: `_remove_worker` / `_remove_parameter_server` request deletion
iff the id belongs to a cached pod of that type whose status is not
DELETED; unknown or already-DELETED ids produce no deletion request (the
error is only logged, nothing is raised, and the cache is only read). -/
theorem c9_remove_validation :
    (∀ (s : ManagerState) (worker_id : Nat),
      remove_worker s worker_id = some worker_id ↔
        worker_id ∈ non_deleted_ids s PodType.WORKER)
    ∧ (∀ (s : ManagerState) (worker_id : Nat),
      remove_worker s worker_id = none ↔
        worker_id ∉ non_deleted_ids s PodType.WORKER)
    ∧ (∀ (s : ManagerState) (ps_id : Nat),
      remove_parameter_server s ps_id = some ps_id ↔
        ps_id ∈ non_deleted_ids s PodType.PS)
    ∧ (∀ (s : ManagerState) (ps_id : Nat),
      remove_parameter_server s ps_id = none ↔
        ps_id ∉ non_deleted_ids s PodType.PS)
    ∧ (∀ (s : ManagerState) (t : PodType) (i : Nat),
      i ∈ non_deleted_ids s t ↔
        ∃ info ∈ (s.pod_info_cache t).map Prod.snd,
          info.id = i ∧ info.status ≠ PodStatus.DELETED) := by
  refine ⟨?_, ?_, ?_, ?_, ?_⟩
  · intro s worker_id
    unfold remove_worker
    split
    · rename_i hmem
      simp [hmem]
    · rename_i hmem
      simp [hmem]
  · intro s worker_id
    unfold remove_worker
    split
    · rename_i hmem
      simp [hmem]
    · rename_i hmem
      simp [hmem]
  · intro s ps_id
    unfold remove_parameter_server
    split
    · rename_i hmem
      simp [hmem]
    · rename_i hmem
      simp [hmem]
  · intro s ps_id
    unfold remove_parameter_server
    split
    · rename_i hmem
      simp [hmem]
    · rename_i hmem
      simp [hmem]
  · intro s t i
    simp only [non_deleted_ids, List.mem_map, List.mem_filter,
      decide_eq_true_eq]
    constructor
    · rintro ⟨info, ⟨hmem, hnd⟩, hid⟩
      exact ⟨info, hmem, hid, hnd⟩
    · rintro ⟨info, hmem, hid, hnd⟩
      exact ⟨info, ⟨hmem, hnd⟩, hid⟩

/-- A state reached from the empty cache by two ADDED+Running worker
events whose container start times are 5 and then 3. -/
def two_worker_state : ManagerState :=
  run_events (init_manager_state (fun _ => none))
    [⟨some ⟨"Pod", "worker-0", none, some "Running", PodType.WORKER, 0,
        [⟨some ⟨5⟩, none⟩]⟩, some "ADDED"⟩,
     ⟨some ⟨"Pod", "worker-1", none, some "Running", PodType.WORKER, 1,
        [⟨some ⟨3⟩, none⟩]⟩, some "ADDED"⟩]

/-- C4 counterexample: two workers whose ADDED+Running events arrive with
start times 5 then 3; `get_alive_workers` returns them in cache insertion
order with start times [5, 3] — not ascending start time. -/
theorem c4_counterexample :
    (get_alive_workers two_worker_state).map PodInfo.start_time =
      [some 5, some 3]
    ∧ ¬ List.Sorted start_time_le (get_alive_workers two_worker_state) := by
  refine ⟨rfl, ?_⟩
  have hlist : get_alive_workers two_worker_state =
      [⟨PodType.WORKER, 0, "worker-0", none, PodStatus.RUNNING, some 5⟩,
       ⟨PodType.WORKER, 1, "worker-1", none, PodStatus.RUNNING, some 3⟩] := rfl
  rw [hlist]
  intro hsorted
  have h5 := List.rel_of_sorted_cons hsorted
    ⟨PodType.WORKER, 1, "worker-1", none, PodStatus.RUNNING, some 3⟩
    (by simp)
  simp [start_time_le] at h5

instance : IsTotal PodInfo start_time_le :=
  ⟨fun a b => Nat.le_total (a.start_time.getD 0) (b.start_time.getD 0)⟩

instance : IsTrans PodInfo start_time_le :=
  ⟨fun _ _ _ => Nat.le_trans⟩

/-- C4 (amended): `get_alive_workers` returns exactly the cached worker
records with status RUNNING, preserving cache insertion order (it does not
sort); the ordering by ascending start time is applied afterwards by
`get_alive_worker_name_addr`, whose sort output is sorted. -/
theorem c4_alive_workers :
    (∀ (s : ManagerState) (info : PodInfo),
      info ∈ get_alive_workers s ↔
        info ∈ (s.pod_info_cache PodType.WORKER).map Prod.snd
          ∧ info.status = PodStatus.RUNNING)
    ∧ (∀ s : ManagerState,
        List.Sublist (get_alive_workers s)
          ((s.pod_info_cache PodType.WORKER).map Prod.snd))
    ∧ (∀ s : ManagerState,
        List.Sorted start_time_le
          ((get_alive_workers s).insertionSort start_time_le))
    ∧ (∀ s : ManagerState,
        get_alive_worker_name_addr s =
          ((get_alive_workers s).insertionSort start_time_le).map
            (fun info => (info.name, info.ip))) := by
  refine ⟨?_, ?_, ?_, fun _ => rfl⟩
  · intro s info
    simp [get_alive_workers, List.mem_filter]
  · intro s
    exact List.filter_sublist _
  · intro s
    exact List.sorted_insertionSort _ _

theorem process_worker_nil (ok : Nat → Bool) : process_worker ok [] = ([], []) := by
  unfold process_worker
  rfl

theorem process_worker_concat_ok {ok : Nat → Bool} {w : Nat} (q : List Nat)
    (hw : ok w = true) :
    process_worker ok (q ++ [w]) =
      ((w :: (process_worker ok q).1), (process_worker ok q).2) := by
  rw [process_worker]
  split
  · rename_i h
    rw [List.getLast?_concat] at h
    exact absurd h (by simp)
  · rename_i wid h
    rw [List.getLast?_concat] at h
    obtain rfl : w = wid := Option.some.inj h
    simp only [List.dropLast_concat, hw, if_true]

theorem process_worker_concat_fail {ok : Nat → Bool} {w : Nat} (q : List Nat)
    (hw : ok w = false) :
    process_worker ok (q ++ [w]) = ([w], q ++ [w]) := by
  rw [process_worker]
  split
  · rename_i h
    rw [List.getLast?_concat] at h
    exact absurd h (by simp)
  · rename_i wid h
    rw [List.getLast?_concat] at h
    obtain rfl : w = wid := Option.some.inj h
    simp [List.dropLast_concat, hw]

/-- C5 counterexample: queue [1, 2] with creation succeeding only for
id 2.  The claim (FIFO order, stop at first failure) predicts attempts
[1] and final queue [1, 2]; the code pops from the END of the list, so it
attempts [2, 1] and leaves final queue [1]. -/
theorem c5_counterexample :
    process_worker (fun n => decide (n = 2)) [1, 2] = ([2, 1], [1])
    ∧ ((([2, 1], [1]) : List Nat × List Nat)) ≠ (([1], [1, 2]) : List Nat × List Nat) := by
  constructor
  · have h1 : process_worker (fun n => decide (n = 2)) ([] ++ [1]) =
        ([1], [] ++ [1]) :=
      process_worker_concat_fail [] (by decide)
    simp only [List.nil_append] at h1
    have h2 : process_worker (fun n => decide (n = 2)) ([1] ++ [2]) =
        ((2 :: (process_worker (fun n => decide (n = 2)) [1]).1),
          (process_worker (fun n => decide (n = 2)) [1]).2) :=
      process_worker_concat_ok [1] (by decide)
    simp only [h1] at h2
    simpa using h2
  · decide

/-- C5 (amended): `_process_worker` drains `_not_created_worker_id` in
LIFO order — `pop()` takes the most recently queued id first — and stops
the pass at the first creation failure, re-appending the failed id so the
whole remaining queue content is kept for the next tick; `_start_worker`
pushes a failed id onto the queue instead of raising. -/
theorem c5_reconciler :
    (∀ (ok : Nat → Bool) (q : List Nat) (w : Nat), ok w = false →
      start_worker ok q w = (false, q ++ [w]))
    ∧ (∀ (ok : Nat → Bool) (q : List Nat) (w : Nat), ok w = true →
      start_worker ok q w = (true, q))
    ∧ (∀ (ok : Nat → Bool) (q : List Nat),
        (∀ i ∈ q, ok i = true) → process_worker ok q = (q.reverse, []))
    ∧ (∀ (ok : Nat → Bool) (q : List Nat) (w : Nat), ok w = false →
        process_worker ok (q ++ [w]) = ([w], q ++ [w])) := by
  refine ⟨?_, ?_, ?_, fun ok q w hw => process_worker_concat_fail q hw⟩
  · intro ok q w hw
    unfold start_worker
    rw [hw]
    rfl
  · intro ok q w hw
    unfold start_worker
    rw [hw]
    rfl
  · intro ok q
    induction q using List.reverseRecOn with
    | nil => intro _; exact process_worker_nil ok
    | append_singleton q a ih =>
      intro hall
      rw [process_worker_concat_ok q (hall a (by simp))]
      rw [ih (fun i hi => hall i (List.mem_append_left _ hi))]
      simp [List.reverse_append]

/-- Witness for C5 (amended): an all-success pass drains [0, 1] attempting
the most recent id first; a failing creation appends its id. -/
theorem c5_reconciler_witness :
    process_worker (fun _ => true) [0, 1] = ([1, 0], [])
    ∧ start_worker (fun _ => false) [] 5 = (false, [5]) := by
  constructor
  · exact c5_reconciler.2.2.1 (fun _ => true) [0, 1] (fun i _ => rfl)
  · exact c5_reconciler.1 (fun _ => false) [] 5 rfl

theorem alist_lookup_insert (l : List (String × PodInfo)) (k : String)
    (v : PodInfo) (k' : String) :
    alist_lookup (alist_insert l k v) k' =
      if k = k' then some v else alist_lookup l k' := by
  induction l with
  | nil => rfl
  | cons p rest ih =>
    unfold alist_insert
    by_cases hp : p.1 = k
    · rw [if_pos hp]
      unfold alist_lookup
      by_cases hk : k = k'
      · rw [if_pos hk, if_pos hk]
      · rw [if_neg hk, if_neg hk, if_neg (hp ▸ hk)]
    · rw [if_neg hp]
      unfold alist_lookup
      by_cases hpk : p.1 = k'
      · rw [if_pos hpk,
          if_neg (show ¬k = k' from fun hk => hp (hpk.trans hk.symm)),
          if_pos hpk]
      · rw [if_neg hpk, ih]
        by_cases hk : k = k'
        · rw [if_pos hk, if_pos hk]
        · rw [if_neg hk, if_neg hk, if_neg hpk]

theorem table_to_status_ne_initial :
    ∀ r ∈ POD_STATE_FLOWS, r.to_status ≠ PodStatus.INITIAL := by
  intro r hr
  fin_cases hr <;> decide

/-- Statuses cached so far are never INITIAL. -/
def cache_statuses_ok (s : ManagerState) : Prop :=
  ∀ (t : PodType) (name : String) (info : PodInfo),
    alist_lookup (s.pod_info_cache t) name = some info →
    info.status ≠ PodStatus.INITIAL

theorem event_cb_cache_cases (s : ManagerState) (e : KubeEvent) :
    (event_cb s e).state.pod_info_cache = s.pod_info_cache ∨
    ∃ obj flow, e.object = some obj
      ∧ flow ∈ POD_STATE_FLOWS
      ∧ (event_cb s e).state.pod_info_cache = cache_after s obj flow := by
  obtain ⟨o, t⟩ := e
  cases o with
  | none => cases t <;> exact Or.inl rfl
  | some obj =>
    cases t with
    | none => exact Or.inl rfl
    | some et =>
      by_cases he : et = ""
      · rw [event_cb_some, if_pos he]
        exact Or.inl rfl
      by_cases hk : obj.kind ≠ "Pod"
      · rw [event_cb_some, if_neg he, if_pos hk]
        exact Or.inl rfl
      by_cases hm : obj.replica_type = PodType.MASTER
      · rw [event_cb_some, if_neg he, if_neg hk, if_pos hm]
        exact Or.inl rfl
      rw [event_cb_match (not_not.mp hk) hm he]
      cases hflow : get_pod_state_flow (cached_status s obj) et obj.phase with
      | none =>
        rw [event_cb_core_no_match hflow]
        exact Or.inl rfl
      | some flow =>
        refine Or.inr ⟨obj, flow, rfl, (get_pod_state_flow_spec hflow).1, ?_⟩
        rw [event_cb_core_match hflow]
        split <;> rfl

theorem event_cb_preserves_cache_ok {s : ManagerState} (e : KubeEvent)
    (hok : cache_statuses_ok s) : cache_statuses_ok (event_cb s e).state := by
  rcases event_cb_cache_cases s e with hsame | ⟨obj, flow, _, hflowmem, hcache⟩
  · intro t name info h
    rw [hsame] at h
    exact hok t name info h
  · intro t name info h
    rw [hcache] at h
    simp only [cache_after] at h
    by_cases ht : t = obj.replica_type
    · rw [if_pos ht, alist_lookup_insert] at h
      by_cases hn : obj.name = name
      · rw [if_pos hn] at h
        obtain rfl := Option.some.inj h
        exact table_to_status_ne_initial flow hflowmem
      · rw [if_neg hn] at h
        exact hok _ name info h
    · rw [if_neg ht] at h
      exact hok t name info h

theorem run_events_cache_ok (events : List KubeEvent) :
    ∀ s : ManagerState, cache_statuses_ok s →
      cache_statuses_ok (run_events s events) := by
  induction events with
  | nil => exact fun s h => h
  | cons e rest ih => exact fun s h => ih _ (event_cb_preserves_cache_ok e h)

/-- C10: no table row targets INITIAL, and after any sequence of watch
events from the initial empty caches, every cached PodInfo's status lies
in {PENDING, RUNNING, SUCCEEDED, FAILED, DELETED}: INITIAL exists only as
the implicit default for names not yet cached. -/
theorem c10_cache_never_initial :
    (∀ r ∈ POD_STATE_FLOWS, r.to_status ≠ PodStatus.INITIAL)
    ∧ (∀ (priority0 : Nat → Option String) (events : List KubeEvent)
        (t : PodType) (name : String) (info : PodInfo),
        alist_lookup
            ((run_events (init_manager_state priority0) events).pod_info_cache t)
            name = some info →
        info.status ∈ [PodStatus.PENDING, PodStatus.RUNNING,
          PodStatus.SUCCEEDED, PodStatus.FAILED, PodStatus.DELETED]) := by
  refine ⟨table_to_status_ne_initial, ?_⟩
  intro priority0 events t name info h
  have hinit : cache_statuses_ok (init_manager_state priority0) := by
    intro t' n' i' h'
    simp [init_manager_state, alist_lookup] at h'
  have hne := run_events_cache_ok events _ hinit t name info h
  cases hstat : info.status
  case INITIAL => exact absurd hstat hne
  all_goals decide

/-- Witness for C10: after a single ADDED+Pending worker event, the one
cached record has status PENDING, which is in the allowed set. -/
theorem c10_cache_never_initial_witness :
    alist_lookup
        ((run_events (init_manager_state (fun _ => none))
          [⟨some ⟨"Pod", "worker-0", none, some "Pending", PodType.WORKER, 0, []⟩,
            some "ADDED"⟩]).pod_info_cache PodType.WORKER) "worker-0" =
      some ⟨PodType.WORKER, 0, "worker-0", none, PodStatus.PENDING, none⟩
    ∧ (⟨PodType.WORKER, 0, "worker-0", none, PodStatus.PENDING, none⟩ :
        PodInfo).status ∈ [PodStatus.PENDING, PodStatus.RUNNING,
          PodStatus.SUCCEEDED, PodStatus.FAILED, PodStatus.DELETED] :=
  ⟨rfl, c10_cache_never_initial.2 (fun _ => none)
    [⟨some ⟨"Pod", "worker-0", none, some "Pending", PodType.WORKER, 0, []⟩,
      some "ADDED"⟩] PodType.WORKER "worker-0"
    ⟨PodType.WORKER, 0, "worker-0", none, PodStatus.PENDING, none⟩ rfl⟩

theorem countP_range_lt_clamp : ∀ (n : Nat) (c : Int),
    (((List.range n).countP (fun (i : Nat) => decide ((i : Int) < c))) : Int) =
      max 0 (min (n : Int) c) := by
  intro n
  induction n with
  | zero =>
    intro c
    simp only [List.range_zero, List.countP_nil, Nat.cast_zero]
    omega
  | succ k ih =>
    intro c
    rw [List.range_succ, List.countP_append]
    have hlast : List.countP (fun (i : Nat) => decide ((i : Int) < c)) [k] =
        if (k : Int) < c then 1 else 0 := by
      simp only [List.countP_cons, List.countP_nil]
      by_cases hk : (k : Int) < c
      · simp [hk]
      · simp [hk]
    rw [hlast]
    have hcount := ih c
    by_cases hk : (k : Int) < c
    · rw [if_pos hk]
      push_cast
      push_cast at hcount
      omega
    · rw [if_neg hk]
      push_cast
      push_cast at hcount
      omega

set_option maxRecDepth 40000 in
/-- C6 counterexample, two violations.  First, "1.5" is outside the
claim's admissible domain (empty/none, "high", "low", a real in [0, 1]),
so the claim requires a configuration error; the code parses any float
string, takes ceil(2 * 1.5) = 3 as the high count and assigns "high" to
every worker instead of raising.  Second, even inside [0, 1] the count of
"high" can differ from the exact ceil(f*n): float("0.07") is the double
0.07000000000000000666..., so for n = 100 the code computes
math.ceil(100 * float("0.07")) = ceil(7.000000000000001) = 8 "high"
workers, while the claim's ceil(f*n) is ceil(7) = 7. -/
theorem c6_counterexample :
    parse_worker_pod_priority 2 (some "1.5") = some [some "high", some "high"]
    ∧ parse_worker_pod_priority 2 (some "1.5") ≠ none
    ∧ ((parse_worker_pod_priority 100 (some "0.07")).getD []).count
        (some "high") = 8
    ∧ ⌈(100 : ℚ) * ((7 : ℚ) / 100)⌉ = 7
    ∧ (8 : Nat) ≠ 7 := by
  refine ⟨by decide, by decide, by decide, ?_, by decide⟩
  have h7 : (100 : ℚ) * ((7 : ℚ) / 100) = ((7 : Int) : ℚ) := by norm_num
  rw [h7, Int.ceil_intCast]

/-- C6 (amended): a spec string accepted by CPython float() (optional
whitespace and sign, decimal digits with underscores and optional
exponent, or inf/infinity/nan) never reaches the "Not support priority"
error: when math.ceil(n * f) over IEEE-754 doubles yields an integer hc,
ids strictly below hc get "high" and the rest "low" (no error even for f
outside [0, 1]); when the double product is infinite or nan, math.ceil
raises and setup fails; the literals high / low / empty / None replicate
to every worker; only a value that is neither a float string nor such a
literal raises the ValueError.  The count of "high" ids equals hc clamped
to [0, n] — the double-arithmetic ceiling, which can differ from the
exact ceil(f*n). -/
theorem c6_priority :
    (∀ (n : Nat) (str : String) (f : PyFloat) (hc : Int),
      parse_py_float str = some f → str ≠ "" →
      pyfloat_ceil (pyfloat_mul (double_of_nat n) f) = some hc →
      parse_worker_pod_priority n (some str) =
        some ((List.range n).map (fun (i : Nat) =>
          if (i : Int) < hc then some "high" else some "low")))
    ∧ (∀ (n : Nat) (str : String) (f : PyFloat),
        parse_py_float str = some f → str ≠ "" →
        pyfloat_ceil (pyfloat_mul (double_of_nat n) f) = none →
        parse_worker_pod_priority n (some str) = none)
    ∧ (∀ (n : Nat) (wpp : Option String),
        is_float_str wpp = false →
        (wpp = none ∨ wpp = some "" ∨ wpp = some "high" ∨ wpp = some "low") →
        parse_worker_pod_priority n wpp =
          some ((List.range n).map (fun _ => wpp)))
    ∧ (∀ (n : Nat) (wpp : Option String),
        is_float_str wpp = false →
        ¬(wpp = none ∨ wpp = some "" ∨ wpp = some "high" ∨ wpp = some "low") →
        parse_worker_pod_priority n wpp = none)
    ∧ (∀ (n : Nat) (hc : Int),
        ((((List.range n).map (fun (i : Nat) =>
            if (i : Int) < hc then some "high" else some "low")).count
          (some "high") : Nat) : Int) = max 0 (min (n : Int) hc)) := by
  refine ⟨?_, ?_, ?_, ?_, ?_⟩
  · intro n str f hc hp hne hceil
    have hfloat : is_float_str (some str) = true := by
      simp [is_float_str, hne, hp]
    unfold parse_worker_pod_priority
    rw [if_pos hfloat]
    show (match parse_py_float str with
      | some fraction =>
        match pyfloat_ceil (pyfloat_mul (double_of_nat n) fraction) with
        | some high_count =>
          some ((List.range n).map (fun (i : Nat) =>
            if (i : Int) < high_count then some "high" else some "low"))
        | none => none
      | none => none) = _
    rw [hp]
    show (match pyfloat_ceil (pyfloat_mul (double_of_nat n) f) with
      | some high_count =>
        some ((List.range n).map (fun (i : Nat) =>
          if (i : Int) < high_count then some "high" else some "low"))
      | none => none) = _
    rw [hceil]
  · intro n str f hp hne hceil
    have hfloat : is_float_str (some str) = true := by
      simp [is_float_str, hne, hp]
    unfold parse_worker_pod_priority
    rw [if_pos hfloat]
    show (match parse_py_float str with
      | some fraction =>
        match pyfloat_ceil (pyfloat_mul (double_of_nat n) fraction) with
        | some high_count =>
          some ((List.range n).map (fun (i : Nat) =>
            if (i : Int) < high_count then some "high" else some "low"))
        | none => none
      | none => none) = _
    rw [hp]
    show (match pyfloat_ceil (pyfloat_mul (double_of_nat n) f) with
      | some high_count =>
        some ((List.range n).map (fun (i : Nat) =>
          if (i : Int) < high_count then some "high" else some "low"))
      | none => none) = _
    rw [hceil]
  · intro n wpp hfloat hlit
    unfold parse_worker_pod_priority
    rw [if_neg (by simp [hfloat]), if_pos hlit]
  · intro n wpp hfloat hlit
    unfold parse_worker_pod_priority
    rw [if_neg (by simp [hfloat]), if_neg hlit]
  · intro n hc
    rw [List.count_eq_countP, List.countP_map]
    have hpeq : ((fun x => x == some "high") ∘ (fun (i : Nat) =>
        if (i : Int) < hc then some "high" else some "low")) =
        (fun (i : Nat) => decide ((i : Int) < hc)) := by
      funext i
      by_cases hi : (i : Int) < hc
      · simp only [Function.comp_apply, if_pos hi, decide_eq_true hi]
        rfl
      · simp only [Function.comp_apply, if_neg hi, decide_eq_false hi]
        rfl
    rw [hpeq]
    exact countP_range_lt_clamp n hc

set_option maxRecDepth 40000 in
/-- Witness for C6 (amended): the spec "0.3" parses to the double
5404319552844595 * 2^-54 = 0.29999999999999998889...; for n = 7 the
double product rounds to 2.1000000000000000888..., math.ceil gives 3, the
parser returns the split list, and the count of "high" is 3. -/
theorem c6_priority_witness :
    parse_worker_pod_priority 7 (some "0.3") =
      some ((List.range 7).map (fun (i : Nat) =>
        if (i : Int) < 3 then some "high" else some "low"))
    ∧ ((((List.range 7).map (fun (i : Nat) =>
        if (i : Int) < 3 then some "high" else some "low")).count
      (some "high") : Nat) : Int) = max 0 (min (7 : Int) 3) := by
  constructor
  · exact c6_priority.1 7 "0.3" (PyFloat.finite 5404319552844595 (-54)) 3
      (by decide) (by decide) (by decide)
  · exact c6_priority.2.2.2.2 7 3

end PodManagerModel
